import Mathlib

/-!
Shallow embedding of the two serverless HTTP handlers of the
business-intelligence repository:

* `src/unnamed/part_000` (the stock-price fan-out handler, `api/stocks.js`),
  embedded in namespace `Stocks`;
* `src/api/transcript.js` (the earnings-transcript handler), embedded in
  namespace `Transcript`.

JavaScript builtins used by the handlers (`parseInt`, `String.prototype.trim`,
`toUpperCase`, `includes`, truthiness) are modelled explicitly as `js*`
functions.  Real time (`new Date().toISOString()`), console logging and the
network transport are outside the model: each handler takes the upstream
HTTP response(s) as an oracle argument and additionally returns the list of
outbound requests it issues, so that "no outbound call is made" is a
statement about that list.
-/

set_option maxRecDepth 10000

/-- Model of a JSON value as produced by `response.json()`.  JSON numerals
denote finite decimal values (the JSON grammar has no NaN or infinity
literal), modelled as rationals; `objLike` stands for any object or array
value (always truthy, never a number).  A field that is absent in the payload
(JS `undefined`) is modelled by `Option.none` at the use site. -/
inductive JsVal where
  | null
  | bool (b : Bool)
  | num (q : ℚ)
  | str (s : String)
  | objLike
  deriving DecidableEq

/-- JavaScript truthiness of a JSON value. -/
def jsTruthy : JsVal → Bool
  | .null => false
  | .bool b => b
  | .num q => q != 0
  | .str s => s != ""
  | .objLike => true

/-- JavaScript truthiness of a possibly absent (undefined) field. -/
def jsTruthyOpt : Option JsVal → Bool
  | none => false
  | some v => jsTruthy v

/-- Whether a JSON value is a finite number (in this model every `num` is
finite, since JSON numerals denote finite values). -/
def isFiniteNumber : JsVal → Bool
  | .num _ => true
  | _ => false

/-- JavaScript falsiness of a string environment variable / query parameter
that may be absent: `undefined` and the empty string are falsy. -/
def jsFalsyStr : Option String → Bool
  | none => true
  | some s => s == ""

/-- Whitespace characters recognised by the model of JS `trim` / `parseInt`
(the ASCII whitespace and line-terminator characters; the handlers' inputs
contain no exotic Unicode whitespace). -/
def jsWhitespace (c : Char) : Bool :=
  c = ' ' || c = '\t' || c = '\n' || c = '\r' || c = '\x0b' || c = '\x0c'

/-- Model of JS `String.prototype.trim`: drop leading and trailing
whitespace. -/
def jsTrim (s : String) : String :=
  ⟨((s.data.dropWhile jsWhitespace).reverse.dropWhile jsWhitespace).reverse⟩

/-- Model of JS `String.prototype.toUpperCase` on the ASCII fragment (every
ticker in the claims is ASCII). -/
def jsToUpper (s : String) : String :=
  ⟨s.data.map Char.toUpper⟩

/-- Decimal digits. -/
def isDigitChar (c : Char) : Bool :=
  decide ('0' ≤ c) && decide (c ≤ '9')

/-- Numeric value of a digit run. -/
def digitsToNat (l : List Char) : Nat :=
  l.foldl (fun acc c => acc * 10 + (c.toNat - 48)) 0

/-- Model of JS `parseInt` (radix 10; inputs with a `0x`/`0X` prefix, which
the handlers never see, are outside the model): skip leading whitespace, read
an optional sign, then the longest leading run of decimal digits; `none`
models the `NaN` result when no digit is read. -/
def jsParseInt (s : String) : Option Int :=
  let l := s.data.dropWhile jsWhitespace
  let signed : Int × List Char :=
    match l with
    | '-' :: rest => (-1, rest)
    | '+' :: rest => (1, rest)
    | _ => (1, l)
  let ds := signed.2.takeWhile isDigitChar
  if ds.isEmpty then none else some (signed.1 * (digitsToNat ds : Int))

/-- Model of JS `String.prototype.includes`: `needle` occurs as a contiguous
substring of `s` (case-sensitive). -/
def jsIncludes (s needle : String) : Bool :=
  s.data.tails.any fun t => needle.data.isPrefixOf t

/-- Model of the Fetch API `Response.ok` flag: status in [200, 300). -/
def fetchOk (status : Nat) : Bool :=
  decide (200 ≤ status) && decide (status < 300)

/-- The three CORS headers both handlers set, in source order, before any
branching (`res.setHeader` lines at the top of each handler). -/
def corsHeaders : List (String × String) :=
  [("Access-Control-Allow-Origin", "*"),
   ("Access-Control-Allow-Methods", "GET, OPTIONS"),
   ("Access-Control-Allow-Headers", "Content-Type")]

/-- An HTTP response as produced by `res.status(...).json(...)` or
`res.status(200).end()`: headers, status code, and a body of the
endpoint-specific shape. -/
structure HttpResponse (β : Type) where
  headers : List (String × String)
  status : Nat
  body : β
  deriving DecidableEq

namespace Stocks

/-- Entry of the fixed `COMPETITORS` list. -/
structure Company where
  ticker : String
  name : String
  deriving DecidableEq

/-- The fixed company list of `api/stocks.js`. -/
def COMPETITORS : List Company :=
  [⟨"AAPL", "Apple Inc."⟩,
   ⟨"MSFT", "Microsoft Corporation"⟩,
   ⟨"GOOGL", "Alphabet Inc. (Google)"⟩,
   ⟨"META", "Meta Platforms Inc."⟩,
   ⟨"AMZN", "Amazon.com Inc."⟩]

/-- Parsed JSON body of an upstream stock-price response, as the handler
inspects it: either a falsy value (`!data` holds: null, 0, "", false) or a
truthy value with a possibly absent `price` field and possibly absent
`exchange` field (a truthy non-object has both fields undefined and is the
`obj none none` case). -/
inductive StockBody where
  | falsy
  | obj (price : Option JsVal) (exchange : Option JsVal)
  deriving DecidableEq

/-- An upstream HTTP response to one `/v1/stockprice` request. -/
structure Upstream where
  status : Nat
  statusText : String
  body : StockBody
  deriving DecidableEq

/-- The data `fetchStockPrice` returns on success: the payload's `price`
value and its optional `exchange` value. -/
structure StockData where
  price : JsVal
  exchange : Option JsVal
  deriving DecidableEq

/-- Embedding of `fetchStockPrice` (part_000 lines 28-56): throw on a
non-ok status; throw on a falsy body or an undefined `price` field; otherwise
return the data.  Thrown errors become `Except.error` carrying the message. -/
def fetchStockPrice (ticker : String) (resp : Upstream) : Except String StockData :=
  if !fetchOk resp.status then
    .error ("API request failed for " ++ ticker ++ ": " ++ toString resp.status
      ++ " " ++ resp.statusText)
  else
    match resp.body with
    | .falsy => .error ("Invalid data received for " ++ ticker)
    | .obj none _ => .error ("Invalid data received for " ++ ticker)
    | .obj (some p) ex => .ok ⟨p, ex⟩

/-- A per-company entry of the `stocks` array.  The `exchange` and `error`
fields are optional because the source omits them from the object literal in
some branches. -/
structure StockResult where
  ticker : String
  companyName : String
  price : JsVal
  exchange : Option JsVal
  success : Bool
  error : Option String
  deriving DecidableEq

/-- Embedding of the per-company callback of `COMPETITORS.map` (part_000
lines 94-117): a successful fetch yields `success: true` with the payload's
price, spreading `exchange` only when it is truthy
(`...(stockData.exchange && { exchange: stockData.exchange })`); a failed
fetch is caught and yields `success: false`, `price: null` and the error
message. -/
def mkStockResult (c : Company) (resp : Upstream) : StockResult :=
  match fetchStockPrice c.ticker resp with
  | .ok d =>
    { ticker := c.ticker
      companyName := c.name
      price := d.price
      exchange := match d.exchange with
        | some v => if jsTruthy v then some v else none
        | none => none
      success := true
      error := none }
  | .error msg =>
    { ticker := c.ticker
      companyName := c.name
      price := .null
      exchange := none
      success := false
      error := some msg }

/-- The settled fan-out results, in `COMPETITORS` order (`Promise.all`
preserves the order of the mapped array regardless of completion order). -/
def results (upstream : String → Upstream) : List StockResult :=
  COMPETITORS.map fun c => mkStockResult c (upstream c.ticker)

/-- Body of a response of the stocks endpoint. -/
inductive RespBody where
  | empty
  | err (error : String) (message : String)
  | unavailable (error : String) (message : String) (details : List StockResult)
  | ok (dataPoints : Nat) (successfulFetches : Nat) (stocks : List StockResult)
  deriving DecidableEq

/-- Status, body and outbound calls of the stocks handler (part_000 lines
62-155), after the unconditional CORS headers: OPTIONS short-circuit, method
check, API-key check, then the fan-out; 503 when no fetch succeeded, else
200.  The second component lists the tickers for which an outbound request
was issued. -/
def handlerCore (method : String) (apiKey : Option String)
    (upstream : String → Upstream) : Nat × RespBody × List String :=
  if method = "OPTIONS" then
    (200, .empty, [])
  else if method ≠ "GET" then
    (405, .err "Method not allowed" "This endpoint only accepts GET requests", [])
  else if jsFalsyStr apiKey then
    (500, .err "Server configuration error" "API authentication is not properly configured", [])
  else
    let stockResults := results upstream
    let successfulFetches := stockResults.filter fun s => s.success
    if successfulFetches.length = 0 then
      (503,
       .unavailable "Service unavailable"
         "Unable to fetch any stock data at this time. Please try again later."
         stockResults,
       COMPETITORS.map fun c => c.ticker)
    else
      (200,
       .ok stockResults.length successfulFetches.length stockResults,
       COMPETITORS.map fun c => c.ticker)

/-- The stocks handler: CORS headers on every response (set before any
branching in the source), then the core logic. -/
def handler (method : String) (apiKey : Option String)
    (upstream : String → Upstream) : HttpResponse RespBody × List String :=
  let core := handlerCore method apiKey upstream
  (⟨corsHeaders, core.1, core.2.1⟩, core.2.2)

end Stocks

namespace Transcript

/-- Parsed JSON body of an upstream transcript response, as the handler
inspects it: a falsy value (`!data` holds) or a truthy value with a possibly
absent `transcript` field. -/
inductive Body where
  | falsy
  | obj (transcript : Option JsVal)
  deriving DecidableEq

/-- An upstream HTTP response to the one `/v1/earningstranscript` request. -/
structure Upstream where
  status : Nat
  statusText : String
  body : Body
  deriving DecidableEq

/-- Embedding of `fetchEarningsTranscript` (transcript.js lines 26-57): on a
non-ok status throw the dedicated message for 404 or the generic one
otherwise; on an ok status throw when the body or its `transcript` field is
falsy (`!data || !data.transcript`); otherwise return the payload.  Thrown
errors become `Except.error` carrying the message. -/
def fetchEarningsTranscript (ticker year quarter : String) (resp : Upstream) :
    Except String Body :=
  if !fetchOk resp.status then
    if resp.status = 404 then
      .error ("No transcript found for " ++ ticker ++ " " ++ year ++ " Q" ++ quarter
        ++ ". The earnings call may not be available yet or the parameters may be incorrect.")
    else
      .error ("API request failed: " ++ toString resp.status ++ " " ++ resp.statusText)
  else
    match resp.body with
    | .falsy =>
      .error ("No transcript data available for " ++ ticker ++ " " ++ year ++ " Q" ++ quarter)
    | .obj t =>
      if !jsTruthyOpt t then
        .error ("No transcript data available for " ++ ticker ++ " " ++ year ++ " Q" ++ quarter)
      else
        .ok (.obj t)

/-- Body of a response of the transcript endpoint.  On success the source
returns the upstream payload spread together with a `fetchedAt` timestamp;
the timestamp is outside the model, so `success` carries the payload. -/
inductive RespBody where
  | empty
  | err (error : String) (message : String)
  | success (data : Body)
  deriving DecidableEq

/-- The regular-expression test of the ticker format check
(`/^[A-Z]\x7b1,5\x7d$/.test(tickerUpper)`): 1 to 5 uppercase ASCII letters. -/
def isValidTicker (s : String) : Bool :=
  decide (1 ≤ s.data.length) && decide (s.data.length ≤ 5)
    && s.data.all fun c => decide ('A' ≤ c) && decide (c ≤ 'Z')

/-- Status, body and outbound calls of the transcript handler (transcript.js
lines 63-176), after the unconditional CORS headers: OPTIONS short-circuit,
method check, API-key check, the three presence checks in order
ticker, year, quarter, the three format checks in order
ticker, year, quarter (`isNaN` of `parseInt` is the `none` case), and then
the one outbound call with the normalized ticker and the stringified parsed
integers.  A thrown fetch error is caught at top level and mapped to 404
exactly when its message contains the substring "not found", else to 500.
The second component lists the `(ticker, year, quarter)` parameter triples of
the outbound requests issued. -/
def handlerCore (method : String) (apiKey : Option String)
    (ticker year quarter : Option String) (upstream : Upstream) :
    Nat × RespBody × List (String × String × String) :=
  if method = "OPTIONS" then
    (200, .empty, [])
  else if method ≠ "GET" then
    (405, .err "Method not allowed" "This endpoint only accepts GET requests", [])
  else if jsFalsyStr apiKey then
    (500, .err "Server configuration error" "API authentication is not properly configured", [])
  else if jsFalsyStr ticker then
    (400, .err "Missing parameter" "Ticker symbol is required", [])
  else if jsFalsyStr year then
    (400, .err "Missing parameter" "Year is required", [])
  else if jsFalsyStr quarter then
    (400, .err "Missing parameter" "Quarter is required", [])
  else
    let tickerUpper := jsTrim (jsToUpper (ticker.getD ""))
    if !isValidTicker tickerUpper then
      (400, .err "Invalid parameter" "Ticker must be 1-5 letters", [])
    else
      match jsParseInt (year.getD "") with
      | none => (400, .err "Invalid parameter" "Year must be between 2000 and 2030", [])
      | some yearNum =>
        if yearNum < 2000 ∨ yearNum > 2030 then
          (400, .err "Invalid parameter" "Year must be between 2000 and 2030", [])
        else
          match jsParseInt (quarter.getD "") with
          | none => (400, .err "Invalid parameter" "Quarter must be between 1 and 4", [])
          | some quarterNum =>
            if quarterNum < 1 ∨ quarterNum > 4 then
              (400, .err "Invalid parameter" "Quarter must be between 1 and 4", [])
            else
              let call := (tickerUpper, toString yearNum, toString quarterNum)
              match fetchEarningsTranscript tickerUpper (toString yearNum)
                  (toString quarterNum) upstream with
              | .ok data => (200, .success data, [call])
              | .error msg =>
                let statusCode : Nat := if jsIncludes msg "not found" then 404 else 500
                (statusCode,
                 .err (if statusCode = 404 then "Not found" else "Internal server error") msg,
                 [call])

/-- The transcript handler: CORS headers on every response (set before any
branching in the source), then the core logic. -/
def handler (method : String) (apiKey : Option String)
    (ticker year quarter : Option String) (upstream : Upstream) :
    HttpResponse RespBody × List (String × String × String) :=
  let core := handlerCore method apiKey ticker year quarter upstream
  (⟨corsHeaders, core.1, core.2.1⟩, core.2.2)

end Transcript

/-- Number of failed entries among the fan-out results (the `k` of the
spec's "k of N per-ticker fetches fail"). -/
def Stocks.failedCount (upstream : String → Stocks.Upstream) : Nat :=
  ((Stocks.results upstream).filter fun s => !s.success).length

/-- Fixture: an upstream that answers every stock-price request with a
successful payload. -/
def uAllOk : String → Stocks.Upstream :=
  fun _ => ⟨200, "OK", .obj (some (.num 1)) none⟩

/-- Fixture: an upstream that fails every stock-price request. -/
def uAllFail : String → Stocks.Upstream :=
  fun _ => ⟨500, "Internal Server Error", .falsy⟩

/-- Fixture: an upstream that fails exactly the AAPL stock-price request. -/
def uOneFail : String → Stocks.Upstream :=
  fun t => if t = "AAPL" then ⟨500, "Internal Server Error", .falsy⟩
    else ⟨200, "OK", .obj (some (.num 1)) none⟩

/-- Fixture: an upstream transcript response with a non-empty transcript. -/
def tOk : Transcript.Upstream :=
  ⟨200, "OK", .obj (some (.str "Operator: Good afternoon."))⟩

/-- Helper: successes and failures partition the fan-out results. -/
theorem filter_success_split (l : List Stocks.StockResult) :
    (l.filter fun s => s.success).length + (l.filter fun s => !s.success).length
      = l.length := by
  simpa using (List.length_eq_length_filter_add (fun s : Stocks.StockResult => s.success)).symm

/-- Helper: the fan-out always produces one result per company. -/
theorem results_length (u : String → Stocks.Upstream) :
    (Stocks.results u).length = 5 := by
  simp [Stocks.results, Stocks.COMPETITORS]

/-- Helper: each fan-out result carries its company's ticker, in both the
success and the failure branch. -/
theorem mkStockResult_ticker (c : Stocks.Company) (resp : Stocks.Upstream) :
    (Stocks.mkStockResult c resp).ticker = c.ticker := by
  unfold Stocks.mkStockResult
  split <;> rfl

/-- Helper: a string starting with a non-empty string is non-empty. -/
theorem append_length_pos_left {s : String} (t : String) (h : 0 < s.length) :
    0 < (s ++ t).length := by
  rw [String.length_append]
  omega

/-- Helper: `fetchStockPrice` succeeds only on an ok status with a present
`price` field, and returns exactly the payload's fields. -/
theorem fetchStockPrice_ok_inv {ticker : String} {resp : Stocks.Upstream}
    {d : Stocks.StockData} (h : Stocks.fetchStockPrice ticker resp = .ok d) :
    fetchOk resp.status = true ∧ resp.body = .obj (some d.price) d.exchange := by
  unfold Stocks.fetchStockPrice at h
  split at h
  · exact absurd h (by simp)
  · next hok =>
    split at h
    · exact absurd h (by simp)
    · exact absurd h (by simp)
    · next p ex hbody =>
      injection h with h2
      subst h2
      exact ⟨by simpa using hok, by simpa using hbody⟩

/-- Helper: every error message `fetchStockPrice` throws is non-empty. -/
theorem fetchStockPrice_error_nonempty {ticker : String} {resp : Stocks.Upstream}
    {msg : String} (h : Stocks.fetchStockPrice ticker resp = .error msg) :
    0 < msg.length := by
  unfold Stocks.fetchStockPrice at h
  split at h
  · cases h
    repeat apply append_length_pos_left
    decide
  · split at h
    · cases h
      apply append_length_pos_left
      decide
    · cases h
      apply append_length_pos_left
      decide
    · exact absurd h (by simp)

/-- Helper: when the method, key, presence, ticker-format and range checks
all pass, the transcript handler issues exactly one outbound request,
carrying the normalized ticker and the stringified parsed integers. -/
theorem transcript_calls (apiKey : Option String) (hk : jsFalsyStr apiKey = false)
    (t y q : String) (ht : t ≠ "") (hy : y ≠ "") (hq : q ≠ "")
    (ny nq : Int) (hyp : jsParseInt y = some ny) (hqp : jsParseInt q = some nq)
    (hvt : Transcript.isValidTicker (jsTrim (jsToUpper t)) = true)
    (hyr : ¬(ny < 2000 ∨ ny > 2030)) (hqr : ¬(nq < 1 ∨ nq > 4))
    (u : Transcript.Upstream) :
    (Transcript.handler "GET" apiKey (some t) (some y) (some q) u).2
      = [(jsTrim (jsToUpper t), toString ny, toString nq)] := by
  have hkt : jsFalsyStr (some t) = false := by simp [jsFalsyStr, ht]
  have hky : jsFalsyStr (some y) = false := by simp [jsFalsyStr, hy]
  have hkq : jsFalsyStr (some q) = false := by simp [jsFalsyStr, hq]
  cases hf : Transcript.fetchEarningsTranscript (jsTrim (jsToUpper t))
      (toString ny) (toString nq) u with
  | ok d =>
    simp [Transcript.handler, Transcript.handlerCore, hk, hkt, hky, hkq,
      hvt, hyp, hqp, hyr, hqr, hf]
  | error m =>
    simp [Transcript.handler, Transcript.handlerCore, hk, hkt, hky, hkq,
      hvt, hyp, hqp, hyr, hqr, hf]

/-- Helper: with all three parameters present but a ticker failing the
format check, the handler answers the invalid-ticker 400 and issues no
outbound request. -/
theorem transcript_invalid_ticker (apiKey : Option String)
    (hk : jsFalsyStr apiKey = false) (t y q : String)
    (ht : t ≠ "") (hy : y ≠ "") (hq : q ≠ "")
    (hvt : Transcript.isValidTicker (jsTrim (jsToUpper t)) = false)
    (u : Transcript.Upstream) :
    Transcript.handler "GET" apiKey (some t) (some y) (some q) u
      = (⟨corsHeaders, 400, .err "Invalid parameter" "Ticker must be 1-5 letters"⟩, []) := by
  have hkt : jsFalsyStr (some t) = false := by simp [jsFalsyStr, ht]
  have hky : jsFalsyStr (some y) = false := by simp [jsFalsyStr, hy]
  have hkq : jsFalsyStr (some q) = false := by simp [jsFalsyStr, hq]
  simp [Transcript.handler, Transcript.handlerCore, hk, hkt, hky, hkq, hvt]

/-- C1: the claim says a valid in-range request whose upstream call returns
HTTP 404 is answered with HTTP 404 and kind "Not found", classification
being by whether the propagated message contains the substring "not found".
The code violates this: the message thrown for an upstream 404 ("No
transcript found for ...") does not contain the lowercase substring
"not found" that the top-level classifier tests, so the handler answers
HTTP 500 with kind "Internal server error".  This theorem evaluates the
embedded handler at the failing input ticker=MSFT, year=2024, quarter=1,
upstream status 404. -/
theorem C1_upstream_404_maps_to_500 :
    (Transcript.handler "GET" (some "k") (some "MSFT") (some "2024") (some "1")
        ⟨404, "Not Found", .falsy⟩).1.status = 500
    ∧ (Transcript.handler "GET" (some "k") (some "MSFT") (some "2024") (some "1")
        ⟨404, "Not Found", .falsy⟩).1.body =
      .err "Internal server error"
        "No transcript found for MSFT 2024 Q1. The earnings call may not be available yet or the parameters may be incorrect."
    ∧ jsIncludes
        "No transcript found for MSFT 2024 Q1. The earnings call may not be available yet or the parameters may be incorrect."
        "not found" = false := by
  decide

/-- C4 counterexample: the claim that `success == true` implies the price is
a finite number fails at an upstream 200 response with body
`price: null`: the code's check `typeof data.price === 'undefined'` lets the
defined-but-null price through, producing `success: true` with
`price: null`. -/
theorem C4_counterexample_null_price :
    (Stocks.mkStockResult ⟨"AAPL", "Apple Inc."⟩
        ⟨200, "OK", .obj (some .null) none⟩).success = true
    ∧ (Stocks.mkStockResult ⟨"AAPL", "Apple Inc."⟩
        ⟨200, "OK", .obj (some .null) none⟩).price = JsVal.null
    ∧ isFiniteNumber (Stocks.mkStockResult ⟨"AAPL", "Apple Inc."⟩
        ⟨200, "OK", .obj (some .null) none⟩).price = false := by
  decide

/-- C4 amended: for every StockResult the price handler constructs, if
`success == true` then `price` is the upstream payload's `price` value —
present (not undefined), though not necessarily a number — and the `error`
field is absent; if `success == false` then `price == null` and `error` is a
non-empty message. -/
theorem C4_amended_result_invariant (c : Stocks.Company) (resp : Stocks.Upstream) :
    if (Stocks.mkStockResult c resp).success then
      (Stocks.mkStockResult c resp).error = none
      ∧ ∃ p ex, resp.body = .obj (some p) ex ∧ (Stocks.mkStockResult c resp).price = p
    else
      (Stocks.mkStockResult c resp).price = .null
      ∧ ∃ m, (Stocks.mkStockResult c resp).error = some m ∧ 0 < m.length := by
  cases hf : Stocks.fetchStockPrice c.ticker resp with
  | ok d =>
    have hinv := fetchStockPrice_ok_inv hf
    simp only [Stocks.mkStockResult, hf, if_true]
    exact ⟨trivial, d.price, d.exchange, hinv.2, rfl⟩
  | error msg =>
    have hm := fetchStockPrice_error_nonempty hf
    simp only [Stocks.mkStockResult, hf, if_false, Bool.false_eq_true]
    exact ⟨trivial, msg, rfl, hm⟩

/-- C8 counterexample: the claim that a successful fetch echoes the
`exchange` field whenever the upstream payload contains one fails when the
field is present but falsy: with `exchange: ""` the spread
`...(stockData.exchange && \x7b exchange \x7d)` adds nothing, so the result has
`success: true` and no `exchange` field. -/
theorem C8_counterexample_falsy_exchange :
    (Stocks.mkStockResult ⟨"AAPL", "Apple Inc."⟩
        ⟨200, "OK", .obj (some (.num 123)) (some (.str ""))⟩).success = true
    ∧ (Stocks.mkStockResult ⟨"AAPL", "Apple Inc."⟩
        ⟨200, "OK", .obj (some (.num 123)) (some (.str ""))⟩).exchange = none := by
  decide

/-- C8 amended: for every successful per-ticker fetch (ok status, `price`
field present), the StockResult has `success: true` and includes the
`exchange` field exactly when the upstream payload's `exchange` field is
present with a truthy value; a present but falsy `exchange` (such as the
empty string) is omitted, as is an absent one. -/
theorem C8_amended_exchange_echo (c : Stocks.Company) (resp : Stocks.Upstream)
    (p : JsVal) (ex : Option JsVal)
    (hok : fetchOk resp.status = true)
    (hbody : resp.body = .obj (some p) ex) :
    (Stocks.mkStockResult c resp).success = true
    ∧ (∀ v, ex = some v → jsTruthy v = true →
        (Stocks.mkStockResult c resp).exchange = some v)
    ∧ (∀ v, ex = some v → jsTruthy v = false →
        (Stocks.mkStockResult c resp).exchange = none)
    ∧ (ex = none → (Stocks.mkStockResult c resp).exchange = none) := by
  have hf : Stocks.fetchStockPrice c.ticker resp = .ok ⟨p, ex⟩ := by
    unfold Stocks.fetchStockPrice
    rw [hbody]
    simp [hok]
  refine ⟨by simp [Stocks.mkStockResult, hf], ?_, ?_, ?_⟩
  · rintro v rfl hv
    simp [Stocks.mkStockResult, hf, hv]
  · rintro v rfl hv
    simp [Stocks.mkStockResult, hf, hv]
  · rintro rfl
    simp [Stocks.mkStockResult, hf]

/-- C8 witness: the amended exchange-echo theorem applied at a concrete
successful response whose payload carries `exchange: "NASDAQ"`. -/
theorem C8_amended_exchange_echo_witness :
    fetchOk 200 = true
    ∧ (Stocks.mkStockResult ⟨"AAPL", "Apple Inc."⟩
        ⟨200, "OK", .obj (some (.num 5)) (some (.str "NASDAQ"))⟩).success = true
    ∧ (Stocks.mkStockResult ⟨"AAPL", "Apple Inc."⟩
        ⟨200, "OK", .obj (some (.num 5)) (some (.str "NASDAQ"))⟩).exchange
      = some (.str "NASDAQ") :=
  ⟨rfl,
   (C8_amended_exchange_echo ⟨"AAPL", "Apple Inc."⟩
      ⟨200, "OK", .obj (some (.num 5)) (some (.str "NASDAQ"))⟩
      (.num 5) (some (.str "NASDAQ")) rfl rfl).1,
   (C8_amended_exchange_echo ⟨"AAPL", "Apple Inc."⟩
      ⟨200, "OK", .obj (some (.num 5)) (some (.str "NASDAQ"))⟩
      (.num 5) (some (.str "NASDAQ")) rfl rfl).2.1 (.str "NASDAQ") rfl (by decide)⟩

/-- C5: a GET request served while the API key is unset or empty is answered
HTTP 500 with the server-configuration error body, and neither handler
issues any outbound request in that case (empty call list). -/
theorem C5_missing_api_key_short_circuits (apiKey : Option String)
    (hk : jsFalsyStr apiKey = true) (uS : String → Stocks.Upstream)
    (t y q : Option String) (uT : Transcript.Upstream) :
    (Stocks.handler "GET" apiKey uS).1.status = 500
    ∧ (Stocks.handler "GET" apiKey uS).1.body =
        .err "Server configuration error" "API authentication is not properly configured"
    ∧ (Stocks.handler "GET" apiKey uS).2 = []
    ∧ (Transcript.handler "GET" apiKey t y q uT).1.status = 500
    ∧ (Transcript.handler "GET" apiKey t y q uT).1.body =
        .err "Server configuration error" "API authentication is not properly configured"
    ∧ (Transcript.handler "GET" apiKey t y q uT).2 = [] := by
  simp [Stocks.handler, Stocks.handlerCore, Transcript.handler, Transcript.handlerCore, hk]

/-- C5 witness: the short-circuit theorem applied at an absent key with live
upstream fixtures. -/
theorem C5_missing_api_key_short_circuits_witness :
    jsFalsyStr none = true
    ∧ (Stocks.handler "GET" none uAllOk).1.status = 500
    ∧ (Stocks.handler "GET" none uAllOk).2 = []
    ∧ (Transcript.handler "GET" none (some "MSFT") (some "2024") (some "1") tOk).1.status = 500
    ∧ (Transcript.handler "GET" none (some "MSFT") (some "2024") (some "1") tOk).2 = [] := by
  have h := C5_missing_api_key_short_circuits none rfl uAllOk
    (some "MSFT") (some "2024") (some "1") tOk
  exact ⟨rfl, h.1, h.2.2.1, h.2.2.2.1, h.2.2.2.2.2⟩

/-- C10: in both handlers the OPTIONS short-circuit and the method check run
before the API-key check: an OPTIONS request is answered HTTP 200 with an
empty body and no outbound call even for an arbitrary (possibly unset) key;
a non-GET non-OPTIONS request is answered HTTP 405; and the three CORS
headers are set on every response of both handlers regardless of method or
outcome. -/
theorem C10_options_method_cors (apiKey : Option String) (m : String)
    (hm1 : m ≠ "GET") (hm2 : m ≠ "OPTIONS")
    (uS : String → Stocks.Upstream) (t y q : Option String)
    (uT : Transcript.Upstream) :
    Stocks.handler "OPTIONS" apiKey uS = (⟨corsHeaders, 200, .empty⟩, [])
    ∧ Transcript.handler "OPTIONS" apiKey t y q uT = (⟨corsHeaders, 200, .empty⟩, [])
    ∧ (Stocks.handler m apiKey uS).1.status = 405
    ∧ (Stocks.handler m apiKey uS).1.body =
        .err "Method not allowed" "This endpoint only accepts GET requests"
    ∧ (Transcript.handler m apiKey t y q uT).1.status = 405
    ∧ (Transcript.handler m apiKey t y q uT).1.body =
        .err "Method not allowed" "This endpoint only accepts GET requests"
    ∧ (∀ m2 : String, (Stocks.handler m2 apiKey uS).1.headers = corsHeaders
        ∧ (Transcript.handler m2 apiKey t y q uT).1.headers = corsHeaders) := by
  refine ⟨rfl, rfl, ?_, ?_, ?_, ?_, fun m2 => ⟨rfl, rfl⟩⟩
  all_goals
    simp [Stocks.handler, Stocks.handlerCore, Transcript.handler,
      Transcript.handlerCore, hm1, hm2]

/-- C10 witness: the OPTIONS/method/CORS theorem applied at method POST
with an unset key. -/
theorem C10_options_method_cors_witness :
    ("POST" ≠ "GET" ∧ "POST" ≠ "OPTIONS")
    ∧ Stocks.handler "OPTIONS" none uAllOk = (⟨corsHeaders, 200, .empty⟩, [])
    ∧ (Stocks.handler "POST" none uAllOk).1.status = 405
    ∧ (Transcript.handler "POST" none (some "MSFT") (some "2024") (some "1") tOk).1.status
        = 405
    ∧ (Stocks.handler "GET" none uAllOk).1.headers = corsHeaders := by
  have h := C10_options_method_cors none "POST" (by decide) (by decide) uAllOk
    (some "MSFT") (some "2024") (some "1") tOk
  exact ⟨⟨by decide, by decide⟩, h.1, h.2.2.1, h.2.2.2.2.1, (h.2.2.2.2.2.2 "GET").1⟩

/-- C6: presence of the three query parameters is checked in the order
ticker, year, quarter: omitting `ticker` yields HTTP 400 naming "Ticker";
supplying a ticker but omitting `year` yields HTTP 400 naming "Year";
supplying both but omitting `quarter` yields HTTP 400 naming "Quarter". -/
theorem C6_missing_param_order (apiKey : Option String)
    (hk : jsFalsyStr apiKey = false) (t y : String)
    (ht : t ≠ "") (hy : y ≠ "")
    (yq qq : Option String) (u : Transcript.Upstream) :
    (Transcript.handler "GET" apiKey none yq qq u).1 =
        ⟨corsHeaders, 400, .err "Missing parameter" "Ticker symbol is required"⟩
    ∧ (Transcript.handler "GET" apiKey (some t) none qq u).1 =
        ⟨corsHeaders, 400, .err "Missing parameter" "Year is required"⟩
    ∧ (Transcript.handler "GET" apiKey (some t) (some y) none u).1 =
        ⟨corsHeaders, 400, .err "Missing parameter" "Quarter is required"⟩
    ∧ jsIncludes "Ticker symbol is required" "Ticker" = true
    ∧ jsIncludes "Year is required" "Year" = true
    ∧ jsIncludes "Quarter is required" "Quarter" = true := by
  have hkt : jsFalsyStr (some t) = false := by simp [jsFalsyStr, ht]
  have hky : jsFalsyStr (some y) = false := by simp [jsFalsyStr, hy]
  have hnone : jsFalsyStr none = true := rfl
  refine ⟨?_, ?_, ?_, by decide, by decide, by decide⟩
  all_goals
    simp [Transcript.handler, Transcript.handlerCore, hk, hkt, hky, hnone]

/-- C6 witness: the validation-order theorem applied at a configured key
with concrete present parameters. -/
theorem C6_missing_param_order_witness :
    jsFalsyStr (some "k") = false
    ∧ (Transcript.handler "GET" (some "k") none none none tOk).1 =
        ⟨corsHeaders, 400, .err "Missing parameter" "Ticker symbol is required"⟩
    ∧ (Transcript.handler "GET" (some "k") (some "MSFT") none none tOk).1 =
        ⟨corsHeaders, 400, .err "Missing parameter" "Year is required"⟩
    ∧ (Transcript.handler "GET" (some "k") (some "MSFT") (some "2024") none tOk).1 =
        ⟨corsHeaders, 400, .err "Missing parameter" "Quarter is required"⟩ := by
  have h := C6_missing_param_order (some "k") rfl "MSFT" "2024"
    (by decide) (by decide) none none tOk
  exact ⟨rfl, h.1, h.2.1, h.2.2.1⟩

/-- C2: whenever the price handler responds HTTP 200 to a GET request, the
body is the ok envelope whose `stocks` array is the full fan-out result
list: exactly 5 entries whose tickers are, in order, AAPL, MSFT, GOOGL,
META, AMZN, regardless of which fetches failed and (since `Promise.all`
preserves array order) regardless of completion order. -/
theorem C2_stocks_order (apiKey : Option String) (u : String → Stocks.Upstream)
    (h200 : (Stocks.handler "GET" apiKey u).1.status = 200) :
    (Stocks.handler "GET" apiKey u).1.body =
      .ok 5 ((Stocks.results u).filter fun s => s.success).length (Stocks.results u)
    ∧ (Stocks.results u).length = 5
    ∧ (Stocks.results u).map (fun s => s.ticker)
        = ["AAPL", "MSFT", "GOOGL", "META", "AMZN"] := by
  have hmap : (Stocks.results u).map (fun s => s.ticker)
      = ["AAPL", "MSFT", "GOOGL", "META", "AMZN"] := by
    simp [Stocks.results, Stocks.COMPETITORS, mkStockResult_ticker]
  refine ⟨?_, results_length u, hmap⟩
  by_cases hk : jsFalsyStr apiKey = true
  · exfalso
    simp [Stocks.handler, Stocks.handlerCore, hk] at h200
  · rw [Bool.not_eq_true] at hk
    by_cases hz : ((Stocks.results u).filter fun s => s.success).length = 0
    · exfalso
      simp [Stocks.handler, Stocks.handlerCore, hk, hz] at h200
    · simp [Stocks.handler, Stocks.handlerCore, hk, hz, results_length]

/-- C2 witness: the ordering theorem applied at an all-successful upstream. -/
theorem C2_stocks_order_witness :
    (Stocks.handler "GET" (some "k") uAllOk).1.status = 200
    ∧ (Stocks.results uAllOk).length = 5
    ∧ (Stocks.results uAllOk).map (fun s => s.ticker)
        = ["AAPL", "MSFT", "GOOGL", "META", "AMZN"] :=
  ⟨by decide, (C2_stocks_order (some "k") uAllOk (by decide)).2.1,
   (C2_stocks_order (some "k") uAllOk (by decide)).2.2⟩

/-- C3: with a configured key, the price handler answers HTTP 503 exactly
when all five fetches fail; when k fetches fail with 1 ≤ k < 5 it answers
HTTP 200 with `successfulFetches = 5 - k` and the full fan-out result list,
in which exactly the k failed entries carry `success: false`. -/
theorem C3_failure_policy (apiKey : Option String)
    (hk : jsFalsyStr apiKey = false) (u : String → Stocks.Upstream) :
    ((Stocks.handler "GET" apiKey u).1.status = 503 ↔
        ∀ s ∈ Stocks.results u, s.success = false)
    ∧ (1 ≤ Stocks.failedCount u → Stocks.failedCount u < 5 →
        (Stocks.handler "GET" apiKey u).1.status = 200
        ∧ (Stocks.handler "GET" apiKey u).1.body =
            .ok 5 (5 - Stocks.failedCount u) (Stocks.results u)) := by
  have hsplit := filter_success_split (Stocks.results u)
  rw [results_length u] at hsplit
  constructor
  · by_cases hz : ((Stocks.results u).filter fun s => s.success).length = 0
    · have hstat : (Stocks.handler "GET" apiKey u).1.status = 503 := by
        simp [Stocks.handler, Stocks.handlerCore, hk, hz]
      rw [hstat]
      simp only [true_iff]
      intro s hs
      have hnil := List.length_eq_zero.mp hz
      have := List.filter_eq_nil_iff.mp hnil s hs
      simpa using this
    · have hstat : (Stocks.handler "GET" apiKey u).1.status = 200 := by
        simp [Stocks.handler, Stocks.handlerCore, hk, hz]
      rw [hstat]
      refine iff_of_false (by decide) ?_
      intro hall
      apply hz
      rw [List.length_eq_zero, List.filter_eq_nil_iff]
      intro s hs
      simp [hall s hs]
  · intro h1 h5
    unfold Stocks.failedCount at h1 h5 ⊢
    have hsf : ((Stocks.results u).filter fun s => s.success).length
        = 5 - ((Stocks.results u).filter fun s => !s.success).length := by
      omega
    have hz : ¬ ((Stocks.results u).filter fun s => s.success).length = 0 := by
      omega
    constructor
    · simp [Stocks.handler, Stocks.handlerCore, hk, hz]
    · have hbody : (Stocks.handler "GET" apiKey u).1.body =
          .ok (Stocks.results u).length
            ((Stocks.results u).filter fun s => s.success).length
            (Stocks.results u) := by
        simp [Stocks.handler, Stocks.handlerCore, hk, hz]
      rw [hbody, results_length u, hsf]

/-- C3 witness: the failure-policy theorem applied at an all-failing
upstream (503 case) and at an upstream failing exactly AAPL (200 case with
`successfulFetches = 4`). -/
theorem C3_failure_policy_witness :
    jsFalsyStr (some "k") = false
    ∧ ((Stocks.handler "GET" (some "k") uAllFail).1.status = 503 ↔
        ∀ s ∈ Stocks.results uAllFail, s.success = false)
    ∧ 1 ≤ Stocks.failedCount uOneFail
    ∧ Stocks.failedCount uOneFail < 5
    ∧ (Stocks.handler "GET" (some "k") uOneFail).1.status = 200
    ∧ (Stocks.handler "GET" (some "k") uOneFail).1.body =
        .ok 5 (5 - Stocks.failedCount uOneFail) (Stocks.results uOneFail) := by
  refine ⟨rfl, (C3_failure_policy (some "k") rfl uAllFail).1, by decide, by decide, ?_, ?_⟩
  · exact ((C3_failure_policy (some "k") rfl uOneFail).2 (by decide) (by decide)).1
  · exact ((C3_failure_policy (some "k") rfl uOneFail).2 (by decide) (by decide)).2

/-- C7: the ticker validation uppercases then trims the ticker and accepts
it exactly when the result matches 1 to 5 uppercase letters: "msft " is
accepted, normalized to "MSFT" and that normalized form is sent in the
outbound request, while "12AB" and "TOOLONG1" are rejected with HTTP 400
(no outbound request); for any ticker string, an outbound request is issued
exactly when the normalized form passes the format test (with valid year
2024 and quarter 1 supplied). -/
theorem C7_ticker_validation (apiKey : Option String)
    (hk : jsFalsyStr apiKey = false) (u : Transcript.Upstream) (t : String) :
    (Transcript.handler "GET" apiKey (some "msft ") (some "2024") (some "1") u).2
        = [("MSFT", "2024", "1")]
    ∧ Transcript.handler "GET" apiKey (some "12AB") (some "2024") (some "1") u
        = (⟨corsHeaders, 400, .err "Invalid parameter" "Ticker must be 1-5 letters"⟩, [])
    ∧ Transcript.handler "GET" apiKey (some "TOOLONG1") (some "2024") (some "1") u
        = (⟨corsHeaders, 400, .err "Invalid parameter" "Ticker must be 1-5 letters"⟩, [])
    ∧ ((Transcript.handler "GET" apiKey (some t) (some "2024") (some "1") u).2 ≠ []
        ↔ Transcript.isValidTicker (jsTrim (jsToUpper t)) = true) := by
  refine ⟨?_, ?_, ?_, ?_⟩
  · exact (transcript_calls apiKey hk "msft " "2024" "1" (by decide) (by decide)
      (by decide) 2024 1 (by decide) (by decide) (by decide) (by decide) (by decide)
      u).trans (by decide)
  · exact transcript_invalid_ticker apiKey hk "12AB" "2024" "1" (by decide)
      (by decide) (by decide) (by decide) u
  · exact transcript_invalid_ticker apiKey hk "TOOLONG1" "2024" "1" (by decide)
      (by decide) (by decide) (by decide) u
  · by_cases hv : Transcript.isValidTicker (jsTrim (jsToUpper t)) = true
    · have ht : t ≠ "" := by
        rintro rfl
        exact absurd hv (by decide)
      have h := transcript_calls apiKey hk t "2024" "1" ht (by decide) (by decide)
        2024 1 (by decide) (by decide) hv (by decide) (by decide) u
      simp [h, hv]
    · have hvf : Transcript.isValidTicker (jsTrim (jsToUpper t)) = false :=
        Bool.not_eq_true _ ▸ eq_false_of_ne_true hv
      by_cases h0 : t = ""
      · subst h0
        have hblank : jsFalsyStr (some "") = true := rfl
        have hempty : (Transcript.handler "GET" apiKey (some "") (some "2024")
            (some "1") u).2 = [] := by
          simp [Transcript.handler, Transcript.handlerCore, hk, hblank]
        simp [hempty, hvf]
      · have h := transcript_invalid_ticker apiKey hk t "2024" "1" h0 (by decide)
          (by decide) hvf u
        simp [h, hvf]

/-- C7 witness: the ticker-validation theorem applied at a configured key
with the claim's example inputs. -/
theorem C7_ticker_validation_witness :
    jsFalsyStr (some "k") = false
    ∧ (Transcript.handler "GET" (some "k") (some "msft ") (some "2024") (some "1") tOk).2
        = [("MSFT", "2024", "1")]
    ∧ (Transcript.handler "GET" (some "k") (some "12AB") (some "2024") (some "1") tOk).1.status
        = 400
    ∧ (Transcript.handler "GET" (some "k") (some "TOOLONG1") (some "2024") (some "1") tOk).1.status
        = 400
    ∧ ((Transcript.handler "GET" (some "k") (some "msft ") (some "2024") (some "1") tOk).2 ≠ []
        ↔ Transcript.isValidTicker (jsTrim (jsToUpper "msft ")) = true) := by
  have h := C7_ticker_validation (some "k") rfl tOk "msft "
  refine ⟨rfl, h.1, ?_, ?_, h.2.2.2⟩
  · rw [h.2.1]
  · rw [h.2.2.1]

/-- C9: year and quarter validation uses integer-prefix parsing, so any
year/quarter string whose leading integer prefix is in range is accepted
even if it is not a pure integer numeral (for example year "2024abc" or
quarter "3.9"), and the truncated integer — not the raw string — is sent in
the outbound request. -/
theorem C9_parseInt_prefix (apiKey : Option String)
    (hk : jsFalsyStr apiKey = false) (u : Transcript.Upstream)
    (y q : String) (ny nq : Int)
    (hy : jsParseInt y = some ny) (hq : jsParseInt q = some nq)
    (hy1 : 2000 ≤ ny) (hy2 : ny ≤ 2030) (hq1 : 1 ≤ nq) (hq2 : nq ≤ 4) :
    (Transcript.handler "GET" apiKey (some "MSFT") (some y) (some q) u).2
      = [("MSFT", toString ny, toString nq)]
    ∧ jsParseInt "2024abc" = some 2024
    ∧ jsParseInt "3.9" = some 3 := by
  have hyne : y ≠ "" := by
    rintro rfl
    rw [show jsParseInt "" = none from rfl] at hy
    exact Option.noConfusion hy
  have hqne : q ≠ "" := by
    rintro rfl
    rw [show jsParseInt "" = none from rfl] at hq
    exact Option.noConfusion hq
  have h := transcript_calls apiKey hk "MSFT" y q (by decide) hyne hqne ny nq hy hq
    (by decide) (by omega) (by omega) u
  rw [show jsTrim (jsToUpper "MSFT") = "MSFT" from by decide] at h
  exact ⟨h, by decide, by decide⟩

/-- C9 witness: the prefix-parsing theorem applied at year "2024abc" and
quarter "3.9": both pass validation and the outbound request carries the
truncated integers "2024" and "3", not the raw strings. -/
theorem C9_parseInt_prefix_witness :
    jsFalsyStr (some "k") = false
    ∧ jsParseInt "2024abc" = some 2024
    ∧ jsParseInt "3.9" = some 3
    ∧ (Transcript.handler "GET" (some "k") (some "MSFT") (some "2024abc") (some "3.9") tOk).2
        = [("MSFT", "2024", "3")] := by
  have h := C9_parseInt_prefix (some "k") rfl tOk "2024abc" "3.9" 2024 3
    (by decide) (by decide) (by decide) (by decide) (by decide) (by decide)
  exact ⟨rfl, by decide, by decide, h.1.trans (by decide)⟩
